import Mathlib

/-!
Verification development for the Polaris auto-trading system core.

Shallow embedding of the Rust sources:
  - src/services/order-matching-engine/src/main.rs  (namespace Matching)
  - src/libs/core/src/lib.rs                        (namespace Core)
  - src/services/order-gateway/src/main.rs          (namespace Gateway)
  - src/services/risk-manager/src/main.rs           (namespace Risk)
  - src/services/compliance-gateway/src/main.rs     (namespace Compliance)

Modelling conventions:
  - Rust f64 prices/quantities/amounts are embedded as Lean rationals. All
    comparisons and arithmetic appearing in the claims are exact on the small
    integral values exercised, so no floating-point rounding is observable.
    The OrderedFloat wrapper only supplies the total order that Rat has.
  - Uuid::new_v4() and Utc::now() are nondeterministic I/O; fresh identifiers
    are passed in as explicit parameters where a claim depends on them and
    modelled as "" where no claim does.  Timestamps are dropped: no claim
    under consideration observes them.
  - HashMap / BTreeMap state is embedded as total functions with a default
    (HashMap entry API) resp. as price-ascending association lists (BTreeMap
    iteration order).
  - Kafka publish calls are recorded as PublishEvent values carrying the
    exact (topic, key, payload) arguments of produce_message, whose Rust
    signature is produce_message(producer, topic, key, payload).
-/

namespace Polaris

/-- A call to kafka_utils::produce_message, recorded by its arguments
(topic, key, payload) in the order of the Rust signature. -/
structure PublishEvent where
  topic : String
  key : String
  payload : String
  deriving DecidableEq

namespace Matching

/-- OrderSide from order-matching-engine/src/main.rs (lines 50-54). -/
inductive OrderSide
  | Buy
  | Sell
  deriving DecidableEq

/-- OrderType from order-matching-engine/src/main.rs (lines 56-60).
Note: the matching engine's own Order type has no time_in_force field at
all (unlike core's Order); serde ignores an incoming time_in_force JSON
field, so TIF never reaches the engine. -/
inductive OrderType
  | Market
  | Limit
  deriving DecidableEq

/-- Order as defined by the matching engine (lines 38-48); the timestamp
field is dropped (no claim observes it). -/
structure Order where
  order_id : String
  client_order_id : String
  symbol : String
  price : ℚ
  quantity : ℚ
  side : OrderSide
  order_type : OrderType
  deriving DecidableEq

/-- Trade (lines 62-71); trade_id is a fresh UUID at runtime, modelled as ""
when the engine creates it, and timestamp is dropped. -/
structure Trade where
  trade_id : String
  symbol : String
  price : ℚ
  quantity : ℚ
  buyer_id : String
  seller_id : String
  deriving DecidableEq

/-- The Trade constructed in match_order (lines 139-155): price is the
resting order's stored price, quantity the given amount, buyer/seller ids
chosen by the incoming order's side. -/
def mkTrade (incoming existing : Order) (qty : ℚ) : Trade :=
  { trade_id := ""
    symbol := incoming.symbol
    price := existing.price
    quantity := qty
    buyer_id :=
      if incoming.side = OrderSide.Buy then incoming.client_order_id
      else existing.client_order_id
    seller_id :=
      if incoming.side = OrderSide.Sell then incoming.client_order_id
      else existing.client_order_id }

/-- One BTreeMap<OrderedFloat, Vec<Order>>: association list sorted
ascending by price (BTreeMap iteration order), each level a FIFO Vec. -/
abbrev SymbolBook := List (ℚ × List Order)

/-- The price guard of match_order (lines 119-122): a buy matches levels
priced at or below its price, a sell matches levels at or above. The code
applies this guard to market orders as well. -/
def priceMatches (incoming : Order) (p : ℚ) : Bool :=
  match incoming.side with
  | OrderSide.Buy => p ≤ incoming.price
  | OrderSide.Sell => incoming.price ≤ p

/-- The inner loop of match_order over the FIFO at one price level
(lines 128-169): while the taker has remaining quantity, trade
min(remaining, maker.quantity), decrement both, and drop makers whose
quantity reaches zero; makers after the break point are kept untouched.
Returns (trades, remaining after the level, surviving FIFO). -/
def matchFifo (incoming : Order) : ℚ → List Order → List Trade × ℚ × List Order
  | remaining, [] => ([], remaining, [])
  | remaining, m :: rest =>
    if remaining ≤ 0 then ([], remaining, m :: rest)
    else
      let qty := min remaining m.quantity
      let result := matchFifo incoming (remaining - qty) rest
      if m.quantity - qty ≤ 0 then
        (mkTrade incoming m qty :: result.1, result.2.1, result.2.2)
      else
        (mkTrade incoming m qty :: result.1, result.2.1,
          { m with quantity := m.quantity - qty } :: result.2.2)

/-- The outer loop of match_order over the snapshot of price levels in
BTreeMap (ascending) order (lines 111-176): stop once remaining is
exhausted, skip (continue past) levels failing the price guard, process
matching levels and remove them when their FIFO empties. -/
def matchLevels (incoming : Order) :
    ℚ → SymbolBook → List Trade × ℚ × SymbolBook
  | remaining, [] => ([], remaining, [])
  | remaining, (p, os) :: rest =>
    if remaining ≤ 0 then ([], remaining, (p, os) :: rest)
    else if priceMatches incoming p then
      let lvl := matchFifo incoming remaining os
      let next := matchLevels incoming lvl.2.1 rest
      if lvl.2.2 = [] then (lvl.1 ++ next.1, next.2.1, next.2.2)
      else (lvl.1 ++ next.1, next.2.1, (p, lvl.2.2) :: next.2.2)
    else
      let next := matchLevels incoming remaining rest
      (next.1, next.2.1, (p, os) :: next.2.2)

/-- MatchingEngine (lines 74-77): per-symbol books for each side. The
HashMaps are embedded as total functions defaulting to the empty book. -/
structure MatchingEngine where
  buy_orders : String → SymbolBook
  sell_orders : String → SymbolBook

/-- Pointwise update of a symbol-keyed map. -/
def updateBook (f : String → SymbolBook) (s : String) (b : SymbolBook) :
    String → SymbolBook :=
  fun s2 => if s2 = s then b else f s2

/-- match_order (lines 101-180): walk the opposing side's book for the
incoming order's symbol. The local remaining_quantity is threaded through
the walk and then DISCARDED (the function only returns the trades),
exactly as in the source. -/
def MatchingEngine.match_order (e : MatchingEngine) (incoming : Order) :
    List Trade × MatchingEngine :=
  match incoming.side with
  | OrderSide.Buy =>
    let r := matchLevels incoming incoming.quantity (e.sell_orders incoming.symbol)
    (r.1, { e with sell_orders := updateBook e.sell_orders incoming.symbol r.2.2 })
  | OrderSide.Sell =>
    let r := matchLevels incoming incoming.quantity (e.buy_orders incoming.symbol)
    (r.1, { e with buy_orders := updateBook e.buy_orders incoming.symbol r.2.2 })

/-- Insertion into the sorted level list, appending at the end of an
existing level's FIFO (add_to_order_book's BTreeMap entry + Vec push). -/
def insertOrder (o : Order) : SymbolBook → SymbolBook
  | [] => [(o.price, [o])]
  | (p, os) :: rest =>
    if o.price < p then (o.price, [o]) :: (p, os) :: rest
    else if o.price = p then (p, os ++ [o]) :: rest
    else (p, os) :: insertOrder o rest

/-- add_to_order_book (lines 182-195): rest the order, as given, on its
own side's book at its price level. -/
def MatchingEngine.add_to_order_book (e : MatchingEngine) (o : Order) :
    MatchingEngine :=
  match o.side with
  | OrderSide.Buy =>
    { e with buy_orders :=
        updateBook e.buy_orders o.symbol (insertOrder o (e.buy_orders o.symbol)) }
  | OrderSide.Sell =>
    { e with sell_orders :=
        updateBook e.sell_orders o.symbol (insertOrder o (e.sell_orders o.symbol)) }

/-- process_order (lines 87-99): match first, then rest the incoming
order if order.quantity > 0.  Note the source tests and rests the
ORIGINAL order: match_order never decremented order.quantity (its local
remaining_quantity was dropped), so the full original quantity rests. -/
def MatchingEngine.process_order (e : MatchingEngine) (o : Order) :
    List Trade × MatchingEngine :=
  let m := e.match_order o
  if 0 < o.quantity then (m.1, m.2.add_to_order_book o) else (m.1, m.2)

/-- All orders resting in a symbol book, in walk order. -/
def bookOrders : SymbolBook → List Order
  | [] => []
  | (_, os) :: rest => os ++ bookOrders rest

/-- The opposing book consulted by match_order for an incoming order. -/
def opposingBook (e : MatchingEngine) (o : Order) : SymbolBook :=
  match o.side with
  | OrderSide.Buy => e.sell_orders o.symbol
  | OrderSide.Sell => e.buy_orders o.symbol

/-- Total traded quantity of a list of trades. -/
def sumQty : List Trade → ℚ
  | [] => 0
  | t :: ts => t.quantity + sumQty ts

/-- JSON serialization of a Trade as serde_json::to_string produces it
(field order = declaration order; integral doubles print as "n.0"; the
dropped timestamp field and shortest-round-trip formatting of
non-integral doubles are not modelled, no claim observes them). -/
def ratJson (q : ℚ) : String :=
  if q.den = 1 then toString q.num ++ ".0" else toString q

def Trade.toJson (t : Trade) : String :=
  "\x7b\"trade_id\":\"" ++ t.trade_id ++ "\",\"symbol\":\"" ++ t.symbol ++
    "\",\"price\":" ++ ratJson t.price ++ ",\"quantity\":" ++ ratJson t.quantity ++
    ",\"buyer_id\":\"" ++ t.buyer_id ++ "\",\"seller_id\":\"" ++ t.seller_id ++ "\"\x7d"

/-- The publish performed by the engine's main loop for each trade
(main.rs lines 236-240): produce_message(producer, "trades.executed",
&trade_json, "") — with produce_message's signature
(producer, topic, key, payload), the serialized trade is passed as the
KEY and the payload is the empty string. -/
def publishTrade (t : Trade) : PublishEvent :=
  { topic := "trades.executed", key := Trade.toJson t, payload := "" }

end Matching

namespace Core

/-- Order from libs/core exchange_connector (lib.rs lines 291-303): the
cross-service order with string-typed side / order_type / time_in_force;
timestamp dropped. -/
structure Order where
  order_id : String
  client_order_id : String
  symbol : String
  price : ℚ
  quantity : ℚ
  side : String
  order_type : String
  time_in_force : String
  user_id : String
  deriving DecidableEq

/-- OrderValidationError (lib.rs lines 388-395). -/
inductive OrderValidationError
  | InvalidPrice
  | InvalidQuantity
  | InvalidSymbol
  | InvalidSide
  | InvalidOrderType
  deriving DecidableEq

/-- The Debug rendering used in the gateway's rejection reason
(format with the error's Debug name). -/
def OrderValidationError.debugName : OrderValidationError → String
  | OrderValidationError.InvalidPrice => "InvalidPrice"
  | OrderValidationError.InvalidQuantity => "InvalidQuantity"
  | OrderValidationError.InvalidSymbol => "InvalidSymbol"
  | OrderValidationError.InvalidSide => "InvalidSide"
  | OrderValidationError.InvalidOrderType => "InvalidOrderType"

/-- order_validator::validate_order (lib.rs lines 409-436): checks in
source order, first failure wins. -/
def validate_order (o : Order) : Except OrderValidationError Unit :=
  if o.price ≤ 0 then Except.error OrderValidationError.InvalidPrice
  else if o.quantity ≤ 0 then Except.error OrderValidationError.InvalidQuantity
  else if o.symbol = "" then Except.error OrderValidationError.InvalidSymbol
  else if ¬(o.side = "buy" ∨ o.side = "sell") then
    Except.error OrderValidationError.InvalidSide
  else if ¬(o.order_type = "limit" ∨ o.order_type = "market" ∨
      o.order_type = "stop" ∨ o.order_type = "stop_limit") then
    Except.error OrderValidationError.InvalidOrderType
  else Except.ok ()

/-- PositionLimit (lib.rs lines 444-451). -/
structure PositionLimit where
  max_long : ℚ
  max_short : ℚ
  max_exposure : ℚ
  max_daily_pnl : ℚ
  max_drawdown : ℚ
  deriving DecidableEq

/-- A risk violation. The source pushes format! strings; we keep the
violating values structurally (the rendered text carries no further
information). circuitBreakerActive / circuitBreakerTripped are the
strings pushed by the risk-manager's handle_risk_check. -/
inductive Violation
  | maxLong (newPosition maxL : ℚ)
  | maxShort (newPosition maxS : ℚ)
  | exposure (exposureValue maxE : ℚ)
  | circuitBreakerActive
  | circuitBreakerTripped
  deriving DecidableEq

/-- RiskEngine state (lib.rs lines 467-473): per-symbol limits and signed
positions (positions.get(..).unwrap_or(&0.0) becomes a total function
defaulting to 0); risk_rules / compliance_rules carry no behaviour in
check_risk_rules / check_compliance and are omitted from the state. -/
structure RiskEngine where
  position_limits : String → Option PositionLimit
  positions : String → ℚ

/-- The new_position computed inside check_position_limits (lib.rs lines
503-507): buy adds the quantity, sell subtracts it, any other side keeps
the current position. -/
def RiskEngine.projectedPosition (eng : RiskEngine) (o : Order) : ℚ :=
  if o.side = "buy" then eng.positions o.symbol + o.quantity
  else if o.side = "sell" then eng.positions o.symbol - o.quantity
  else eng.positions o.symbol

/-- RiskEngine::check_position_limits (lib.rs lines 498-524): project the
position, collect the three limit violations in source order, return
None when the list is empty. -/
def RiskEngine.check_position_limits (eng : RiskEngine) (o : Order) :
    Option (List Violation) :=
  let violations :=
    match eng.position_limits o.symbol with
    | none => []
    | some limit =>
      let newPosition := eng.projectedPosition o
      (if limit.max_long < newPosition then
        [Violation.maxLong newPosition limit.max_long] else []) ++
      (if newPosition < -limit.max_short then
        [Violation.maxShort newPosition limit.max_short] else []) ++
      (if limit.max_exposure < |newPosition| * o.price then
        [Violation.exposure (|newPosition| * o.price) limit.max_exposure] else [])
  if violations = [] then none else some violations

/-- RiskEngine::check_risk_rules (lib.rs lines 526-530): always None. -/
def RiskEngine.check_risk_rules (_eng : RiskEngine) (_o : Order) :
    Option (List Violation) :=
  none

/-- RiskEngine::check_compliance (lib.rs lines 532-536): always None. -/
def RiskEngine.check_compliance (_eng : RiskEngine) (_o : Order) :
    Option (List Violation) :=
  none

end Core

namespace Gateway

/-- OrderRequest (order-gateway/src/main.rs lines 33-42). -/
structure OrderRequest where
  client_order_id : String
  symbol : String
  price : ℚ
  quantity : ℚ
  side : String
  order_type : String
  time_in_force : String
  deriving DecidableEq

/-- OrderResponse (lines 44-51), timestamp dropped. -/
structure OrderResponse where
  order_id : String
  client_order_id : String
  status : String
  reason : String
  deriving DecidableEq

/-- create_order_response (lines 338-346): the response's
client_order_id is a fresh UUID (passed in as freshClientId). -/
def create_order_response (freshClientId : String)
    (order_id status reason : String) : OrderResponse :=
  { order_id := order_id
    client_order_id := freshClientId
    status := status
    reason := reason }

/-- handle_order (lines 259-336).  Runtime inputs that are I/O are passed
explicitly: breakerActive is the cooldown_until/Instant::now comparison,
rateLimitExceeded the rate_limiter.check() outcome (consulted only after
validation succeeds, as in the source), validationId/acceptId the two
Uuid::new_v4() order ids, freshClientId the UUID create_order_response
generates.  The enriched Order built on the accepted path is dropped by
the source (only the response escapes), so it is not returned here
either. -/
def handle_order (breakerActive rateLimitExceeded : Bool)
    (validationId acceptId freshClientId : String)
    (req : OrderRequest) : OrderResponse :=
  if breakerActive then
    create_order_response freshClientId "" "rejected" "circuit_breaker_active"
  else
    let orderForValidation : Core.Order :=
      { order_id := validationId
        client_order_id := req.client_order_id
        symbol := req.symbol
        price := req.price
        quantity := req.quantity
        side := req.side
        order_type := req.order_type
        time_in_force := req.time_in_force
        user_id := "" }
    match Core.validate_order orderForValidation with
    | Except.error e =>
      create_order_response freshClientId "" "rejected"
        ("validation_error: " ++ e.debugName)
    | Except.ok _ =>
      if rateLimitExceeded then
        create_order_response freshClientId "" "rejected" "rate_limit_exceeded"
      else
        create_order_response freshClientId acceptId "accepted" "order_received"

/-- JSON serialization of an OrderResponse as serde would emit it (field
order = declaration order, timestamp dropped). -/
def OrderResponse.toJson (r : OrderResponse) : String :=
  "\x7b\"order_id\":\"" ++ r.order_id ++ "\",\"client_order_id\":\"" ++
    r.client_order_id ++ "\",\"status\":\"" ++ r.status ++ "\",\"reason\":\"" ++
    r.reason ++ "\"\x7d"

/-- One iteration of the gateway main loop for a parsed OrderRequest
(lines 185-197): call handle_order, then UNCONDITIONALLY publish the
serialized OrderResponse on the output topic (default "orders.incoming")
keyed by the response's order_id — for accepted and rejected requests
alike; the enriched Order is never published. -/
def gatewayStep (outputTopic : String) (breakerActive rateLimitExceeded : Bool)
    (validationId acceptId freshClientId : String)
    (req : OrderRequest) : OrderResponse × List PublishEvent :=
  let result := handle_order breakerActive rateLimitExceeded
    validationId acceptId freshClientId req
  (result, [{ topic := outputTopic, key := result.order_id,
              payload := result.toJson }])

end Gateway

namespace Risk

/-- RiskValidation (risk-manager/src/main.rs lines 20-27); the
position_status block and timestamp are filled with constants/clock
values in the source and dropped here. -/
structure RiskValidation where
  order_id : String
  status : String
  violations : List Core.Violation
  deriving DecidableEq

/-- handle_risk_check (risk-manager/src/main.rs lines 280-353).
breakerActive is the cooldown_until/Instant::now comparison; threshold is
config.circuit_breaker_threshold.  The position-limit, risk-rule and
compliance check results are concatenated in source order; reaching the
threshold replaces the list with circuit_breaker_tripped (the source also
arms the breaker — post-state is not needed by any claim). -/
def handle_risk_check (breakerActive : Bool) (threshold : ℕ)
    (eng : Core.RiskEngine) (o : Core.Order) : RiskValidation :=
  if breakerActive then
    { order_id := o.order_id, status := "rejected",
      violations := [Core.Violation.circuitBreakerActive] }
  else
    let violations :=
      (eng.check_position_limits o).getD [] ++
      (eng.check_risk_rules o).getD [] ++
      (eng.check_compliance o).getD []
    if threshold ≤ violations.length then
      { order_id := o.order_id, status := "rejected",
        violations := [Core.Violation.circuitBreakerTripped] }
    else if violations = [] then
      { order_id := o.order_id, status := "approved", violations := [] }
    else
      { order_id := o.order_id, status := "rejected", violations := violations }

end Risk

namespace Compliance

/-- Transaction (compliance-gateway/src/main.rs lines 27-37), timestamp
dropped (it only feeds the velocity window and risk-score clock, which
are abstracted by recentCount below). -/
structure Transaction where
  transaction_id : String
  user_id : String
  symbol : String
  amount : ℚ
  transaction_type : String
  wallet_address : Option String
  counterparty : Option String
  deriving DecidableEq

/-- AMLAlert (lines 50-60); alert_id (fresh UUID), description (a format!
string over already-captured values), risk_indicators and timestamp are
dropped — no claim observes them. -/
structure AMLAlert where
  transaction_id : String
  alert_type : String
  severity : String
  recommended_action : String
  deriving DecidableEq

/-- RiskThresholds (lines 97-104). -/
structure RiskThresholds where
  transaction_amount_high : ℚ
  transaction_amount_critical : ℚ
  daily_volume_limit : ℚ
  risk_score_threshold : ℚ
  velocity_threshold : ℕ
  deriving DecidableEq

/-- AMLRule (lines 106-114): the JSON parameter map is embedded as a
partial map to numbers (the only parameters read are numeric:
"threshold" via as_f64 and "max_per_hour" via as_u64). -/
structure AMLRule where
  rule_id : String
  rule_type : String
  parameters : String → Option ℚ
  enabled : Bool

/-- check_aml_rule (lines 341-391).  recentCount abstracts the velocity
query (this user's transactions in the trailing hour of the in-memory
window); a missing/non-numeric parameter makes the rule emit nothing
(the ? operator).  The "amount" rule fires when amount > threshold with
severity critical iff amount > transaction_amount_critical, else high;
the "velocity" rule fires when recentCount > max_per_hour with severity
medium; other rule types emit nothing. -/
def check_aml_rule (cfg : RiskThresholds) (recentCount : ℕ)
    (t : Transaction) (rule : AMLRule) : Option AMLAlert :=
  if rule.rule_type = "amount" then
    match rule.parameters "threshold" with
    | none => none
    | some threshold =>
      if threshold < t.amount then
        some { transaction_id := t.transaction_id
               alert_type := rule.rule_id
               severity :=
                 if cfg.transaction_amount_critical < t.amount then "critical"
                 else "high"
               recommended_action := "enhanced_due_diligence" }
      else none
  else if rule.rule_type = "velocity" then
    match rule.parameters "max_per_hour" with
    | none => none
    | some maxPerHour =>
      if maxPerHour < (recentCount : ℚ) then
        some { transaction_id := t.transaction_id
               alert_type := rule.rule_id
               severity := "medium"
               recommended_action := "temporary_limit" }
      else none
  else none

/-- ComplianceConfig::default risk thresholds (lines 124-130). -/
def defaultRiskThresholds : RiskThresholds :=
  { transaction_amount_high := 10000
    transaction_amount_critical := 50000
    daily_volume_limit := 100000
    risk_score_threshold := 75
    velocity_threshold := 10 }

/-- The default LARGE_TRANSACTION amount rule (lines 132-143):
threshold parameter 10000, enabled. -/
def largeTransactionRule : AMLRule :=
  { rule_id := "LARGE_TRANSACTION"
    rule_type := "amount"
    parameters := fun k => if k = "threshold" then some 10000 else none
    enabled := true }

end Compliance

namespace Examples

/-- An empty matching engine. -/
def emptyEngine : Matching.MatchingEngine :=
  { buy_orders := fun _ => [], sell_orders := fun _ => [] }

/-- Resting ask: 2 units offered at 100. -/
def askA : Matching.Order :=
  { order_id := "a1", client_order_id := "ca1", symbol := "BTC/USD",
    price := 100, quantity := 2,
    side := Matching.OrderSide.Sell, order_type := Matching.OrderType.Limit }

/-- Incoming buy limit for 5 units at 100 (crosses askA for 2). -/
def buyA : Matching.Order :=
  { order_id := "b1", client_order_id := "cb1", symbol := "BTC/USD",
    price := 100, quantity := 5,
    side := Matching.OrderSide.Buy, order_type := Matching.OrderType.Limit }

/-- Engine holding only askA. -/
def engineA : Matching.MatchingEngine :=
  { buy_orders := fun _ => [],
    sell_orders := fun s => if s = "BTC/USD" then [(100, [askA])] else [] }

/-- Resting bid of 1 unit at 101. -/
def bidLow : Matching.Order :=
  { order_id := "o101", client_order_id := "c101", symbol := "BTC/USD",
    price := 101, quantity := 1,
    side := Matching.OrderSide.Buy, order_type := Matching.OrderType.Limit }

/-- Resting bid of 1 unit at 102 (the better bid). -/
def bidHigh : Matching.Order :=
  { order_id := "o102", client_order_id := "c102", symbol := "BTC/USD",
    price := 102, quantity := 1,
    side := Matching.OrderSide.Buy, order_type := Matching.OrderType.Limit }

/-- Engine holding bids at 101 and 102. -/
def engineB : Matching.MatchingEngine :=
  { buy_orders := fun s => if s = "BTC/USD" then [(101, [bidLow]), (102, [bidHigh])] else [],
    sell_orders := fun _ => [] }

/-- Incoming sell limit of 1 unit at 100: both bids are crossable. -/
def sellB : Matching.Order :=
  { order_id := "s1", client_order_id := "cs1", symbol := "BTC/USD",
    price := 100, quantity := 1,
    side := Matching.OrderSide.Sell, order_type := Matching.OrderType.Limit }

/-- Resting ask of 1 unit at 50 (scenario S3). -/
def askC : Matching.Order :=
  { order_id := "a3", client_order_id := "ca3", symbol := "BTC/USD",
    price := 50, quantity := 1,
    side := Matching.OrderSide.Sell, order_type := Matching.OrderType.Limit }

/-- Engine holding only askC. -/
def engineC : Matching.MatchingEngine :=
  { buy_orders := fun _ => [],
    sell_orders := fun s => if s = "BTC/USD" then [(50, [askC])] else [] }

/-- Incoming buy for 2 units at 50; on the wire it carries
time_in_force = "FOK", which serde drops because the engine's Order type
has no such field — this value is its entire image inside the engine. -/
def buyFOK : Matching.Order :=
  { order_id := "b3", client_order_id := "cb3", symbol := "BTC/USD",
    price := 50, quantity := 2,
    side := Matching.OrderSide.Buy, order_type := Matching.OrderType.Limit }

/-- A concrete trade, as the engine would publish it. -/
def tradeT : Matching.Trade :=
  { trade_id := "t-1", symbol := "BTC/USD", price := 100, quantity := 2,
    buyer_id := "cb1", seller_id := "ca1" }

/-- An order request that fails validation (price ≤ 0). -/
def badPriceReq : Gateway.OrderRequest :=
  { client_order_id := "c-1", symbol := "BTC/USD", price := -1, quantity := 1,
    side := "buy", order_type := "limit", time_in_force := "GTC" }

/-- A valid order request. -/
def goodReq : Gateway.OrderRequest :=
  { client_order_id := "c-2", symbol := "BTC/USD", price := 100, quantity := 1,
    side := "buy", order_type := "limit", time_in_force := "GTC" }

/-- Scenario S4 position limits: max_long 10, max_short 10, max_exposure 500. -/
def limitS4 : Core.PositionLimit :=
  { max_long := 10, max_short := 10, max_exposure := 500,
    max_daily_pnl := 0, max_drawdown := 0 }

/-- Risk engine with the S4 limit on BTC/USD and flat positions. -/
def riskEngineS4 : Core.RiskEngine :=
  { position_limits := fun s => if s = "BTC/USD" then some limitS4 else none,
    positions := fun _ => 0 }

/-- Scenario S4 order: buy 6 at price 100 (projected exposure 600 > 500). -/
def orderS4 : Core.Order :=
  { order_id := "o-s4", client_order_id := "c-s4", symbol := "BTC/USD",
    price := 100, quantity := 6, side := "buy", order_type := "limit",
    time_in_force := "GTC", user_id := "u1" }

/-- Risk engine with no configured position limits at all. -/
def riskEngineFree : Core.RiskEngine :=
  { position_limits := fun _ => none, positions := fun _ => 0 }

/-- An order on a symbol with no configured limit. -/
def orderFree : Core.Order :=
  { order_id := "o-10", client_order_id := "c-10", symbol := "XYZ/USD",
    price := 7, quantity := 3, side := "buy", order_type := "limit",
    time_in_force := "GTC", user_id := "u1" }

/-- Scenario S5 transaction: amount exactly 50,000. -/
def txBoundary : Compliance.Transaction :=
  { transaction_id := "tx-1", user_id := "u1", symbol := "BTC/USD",
    amount := 50000, transaction_type := "deposit",
    wallet_address := none, counterparty := none }

/-- A transaction strictly above the critical threshold. -/
def txHuge : Compliance.Transaction :=
  { transaction_id := "tx-2", user_id := "u1", symbol := "BTC/USD",
    amount := 60000, transaction_type := "deposit",
    wallet_address := none, counterparty := none }

end Examples

end Polaris

open Polaris Polaris.Matching Polaris.Examples

/-- C1: conservation fails on the code.  With one resting ask of 2 @ 100
and an incoming buy of 5 @ 100, process_order emits a single trade of
quantity 2, yet rests the incoming order with its FULL original quantity
5 (match_order's local remaining_quantity is discarded, order.quantity is
never decremented): 2 + 5 = 7 ≠ 5 = quantity before the call. -/
theorem process_order_conservation_violated :
    (engineA.process_order buyA).1 = [mkTrade buyA askA 2] ∧
    (engineA.process_order buyA).2.buy_orders "BTC/USD" = [(100, [buyA])] ∧
    sumQty (engineA.process_order buyA).1 + buyA.quantity = 7 ∧
    buyA.quantity = 5 := by
  refine ⟨?_, ?_, ?_, ?_⟩ <;>
    norm_num [Matching.MatchingEngine.process_order,
      Matching.MatchingEngine.match_order, Matching.matchLevels,
      Matching.matchFifo, Matching.MatchingEngine.add_to_order_book,
      Matching.updateBook, Matching.insertOrder, Matching.priceMatches,
      Matching.mkTrade, Matching.sumQty, engineA, buyA, askA, min_def]

/-- C2: price priority fails for incoming sells.  With bids resting at
101 and 102 (both crossable by a sell at 100), the engine walks the bid
BTreeMap in ascending key order, so the single trade executes at 101
while the better bid at 102 remains untouched in the book. -/
theorem sell_matches_worst_bid_first :
    (engineB.process_order sellB).1 = [mkTrade sellB bidLow 1] ∧
    (mkTrade sellB bidLow 1).price = 101 ∧
    (engineB.process_order sellB).2.buy_orders "BTC/USD" = [(102, [bidHigh])] := by
  refine ⟨?_, ?_, ?_⟩ <;>
    norm_num [Matching.MatchingEngine.process_order,
      Matching.MatchingEngine.match_order, Matching.matchLevels,
      Matching.matchFifo, Matching.MatchingEngine.add_to_order_book,
      Matching.updateBook, Matching.insertOrder, Matching.priceMatches,
      Matching.mkTrade, engineB, sellB, bidLow, bidHigh, min_def]

/-- C4: fill-or-kill is not implemented.  The engine's Order type has no
time_in_force field, so an incoming buy "FOK" of 2 @ 50 against a single
ask of 1 @ 50 partially fills (one trade of quantity 1) and mutates the
book (the ask is consumed and the remainder rests), instead of emitting
zero trades and leaving the book unchanged. -/
theorem fok_order_partially_fills_and_rests :
    (engineC.process_order buyFOK).1 = [mkTrade buyFOK askC 1] ∧
    (engineC.process_order buyFOK).1 ≠ [] ∧
    (engineC.process_order buyFOK).2.sell_orders "BTC/USD" = [] ∧
    engineC.sell_orders "BTC/USD" = [(50, [askC])] := by
  refine ⟨?_, ?_, ?_, ?_⟩ <;>
    norm_num [Matching.MatchingEngine.process_order,
      Matching.MatchingEngine.match_order, Matching.matchLevels,
      Matching.matchFifo, Matching.MatchingEngine.add_to_order_book,
      Matching.updateBook, Matching.insertOrder, Matching.priceMatches,
      Matching.mkTrade, engineC, buyFOK, askC, min_def]

/-- C5: trade publication is mangled.  The engine calls
produce_message(producer, "trades.executed", &trade_json, "") against the
signature (producer, topic, key, payload): the message key is the whole
serialized trade (not the trade_id) and the payload is the empty string
(not the trade JSON). -/
theorem trade_publish_key_payload_swapped :
    (publishTrade tradeT).topic = "trades.executed" ∧
    (publishTrade tradeT).key = Trade.toJson tradeT ∧
    (publishTrade tradeT).key ≠ tradeT.trade_id ∧
    (publishTrade tradeT).payload ≠ Trade.toJson tradeT := by
  refine ⟨rfl, rfl, by decide, by decide⟩

/-- C3: the gateway publishes on reject too — and never publishes the
enriched Order.  For a request with price -1 the response is rejected,
yet the main loop still performs exactly one publish on orders.incoming,
whose payload is the serialized OrderResponse. -/
theorem gateway_publishes_response_on_reject :
    (Gateway.gatewayStep "orders.incoming" false false "v1" "a1" "u1" badPriceReq).1.status
      = "rejected" ∧
    (Gateway.gatewayStep "orders.incoming" false false "v1" "a1" "u1" badPriceReq).2.length
      = 1 ∧
    (Gateway.gatewayStep "orders.incoming" false false "v1" "a1" "u1" badPriceReq).2 =
      [{ topic := "orders.incoming", key := "",
         payload := Gateway.OrderResponse.toJson
           (Gateway.handle_order false false "v1" "a1" "u1" badPriceReq) }] := by
  refine ⟨by decide, by decide, by decide⟩

/-- C8 counterexample: a transaction of amount exactly 50,000 (the
critical threshold) fires the LARGE_TRANSACTION rule with severity
"high", not "critical" — the code (and the claim's own general rule)
requires amount strictly above the critical threshold for critical. -/
theorem amount_rule_critical_boundary :
    Compliance.check_aml_rule Compliance.defaultRiskThresholds 0 txBoundary
        Compliance.largeTransactionRule =
      some { transaction_id := "tx-1", alert_type := "LARGE_TRANSACTION",
             severity := "high", recommended_action := "enhanced_due_diligence" } ∧
    ("high" : String) ≠ "critical" := by
  refine ⟨by decide, by decide⟩

/-- C10 counterexample: with circuit_breaker_threshold = 0 and the
circuit breaker inactive, an order on a symbol with no configured
PositionLimit is REJECTED (zero violations already reach the threshold,
so the gate answers circuit_breaker_tripped), not approved. -/
theorem risk_gate_zero_threshold_rejects :
    Risk.handle_risk_check false 0 riskEngineFree orderFree =
      { order_id := "o-10", status := "rejected",
        violations := [Core.Violation.circuitBreakerTripped] } := by
  decide

/-- If the empty list is mapped to none, a some-result is nonempty. -/
theorem ite_nil_eq_some {α : Type} [DecidableEq α] (l v : List α)
    (h : (if l = [] then (none : Option (List α)) else some l) = some v) :
    v ≠ [] := by
  split_ifs at h with hc
  obtain rfl := Option.some.inj h
  exact hc

/-- A some-result of check_position_limits is a nonempty violation list. -/
theorem check_position_limits_some_ne_nil (eng : Core.RiskEngine)
    (o : Core.Order) (v : List Core.Violation)
    (h : eng.check_position_limits o = some v) : v ≠ [] := by
  dsimp only [Core.RiskEngine.check_position_limits] at h
  exact ite_nil_eq_some _ v h

/-- When position limits are violated, handle_risk_check never answers
"approved" (it answers circuit_breaker_tripped or rejected-with-list). -/
theorem not_approved_of_position_violation (eng : Core.RiskEngine)
    (o : Core.Order) (threshold : ℕ)
    (h : eng.check_position_limits o ≠ none) :
    (Risk.handle_risk_check false threshold eng o).status ≠ "approved" := by
  rcases hv : eng.check_position_limits o with _ | v
  · exact absurd hv h
  have hne := check_position_limits_some_ne_nil eng o v hv
  dsimp only [Risk.handle_risk_check]
  simp only [Bool.false_eq_true, if_false, hv, Core.RiskEngine.check_risk_rules,
    Core.RiskEngine.check_compliance, Option.getD_some, Option.getD_none,
    List.append_nil]
  split_ifs with h1
  · simp
  · simp

/-- C6: position-limit check.  With a configured limit L for the order's
symbol and a buy/sell side, check_position_limits reports a violation
exactly when the projected position p2 (current + quantity for buy,
current - quantity for sell) satisfies p2 > max_long, p2 < -max_short, or
the projected exposure exceeds max_exposure; and handle_risk_check never
approves an order whose position-limit check reports a violation. -/
theorem check_position_limits_spec (eng : Core.RiskEngine) (o : Core.Order)
    (L : Core.PositionLimit) (threshold : ℕ)
    (hL : eng.position_limits o.symbol = some L)
    (hside : o.side = "buy" ∨ o.side = "sell") :
    (eng.projectedPosition o =
      if o.side = "buy" then eng.positions o.symbol + o.quantity
      else eng.positions o.symbol - o.quantity) ∧
    (eng.check_position_limits o ≠ none ↔
      (L.max_long < eng.projectedPosition o ∨
       eng.projectedPosition o < -L.max_short ∨
       L.max_exposure < |eng.projectedPosition o| * o.price)) ∧
    (eng.check_position_limits o ≠ none →
      (Risk.handle_risk_check false threshold eng o).status ≠ "approved") := by
  refine ⟨?_, ?_, not_approved_of_position_violation eng o threshold⟩
  · rcases hside with h | h <;> simp [Core.RiskEngine.projectedPosition, h]
  · by_cases h1 : L.max_long < eng.projectedPosition o <;>
      by_cases h2 : eng.projectedPosition o < -L.max_short <;>
      by_cases h3 : L.max_exposure < |eng.projectedPosition o| * o.price <;>
      simp [Core.RiskEngine.check_position_limits, hL, h1, h2, h3]

/-- C6 witness: scenario S4.  Limit {max_long 10, max_short 10,
max_exposure 500}, flat position, buy 6 @ 100: projected exposure 600
exceeds 500, the order is rejected and the violation list carries the
exposure violation 600 > 500. -/
theorem check_position_limits_spec_s4 :
    (Risk.handle_risk_check false 5000 riskEngineS4 orderS4).status = "rejected" ∧
    (Risk.handle_risk_check false 5000 riskEngineS4 orderS4).violations =
      [Core.Violation.exposure 600 500] ∧
    ((riskEngineS4.projectedPosition orderS4 =
      if orderS4.side = "buy" then
        riskEngineS4.positions orderS4.symbol + orderS4.quantity
      else riskEngineS4.positions orderS4.symbol - orderS4.quantity) ∧
    (riskEngineS4.check_position_limits orderS4 ≠ none ↔
      (limitS4.max_long < riskEngineS4.projectedPosition orderS4 ∨
       riskEngineS4.projectedPosition orderS4 < -limitS4.max_short ∨
       limitS4.max_exposure <
         |riskEngineS4.projectedPosition orderS4| * orderS4.price)) ∧
    (riskEngineS4.check_position_limits orderS4 ≠ none →
      (Risk.handle_risk_check false 5000 riskEngineS4 orderS4).status ≠
        "approved")) :=
  ⟨by norm_num [Risk.handle_risk_check, Core.RiskEngine.check_position_limits,
      Core.RiskEngine.check_risk_rules, Core.RiskEngine.check_compliance,
      Core.RiskEngine.projectedPosition, riskEngineS4, orderS4, limitS4],
   by norm_num [Risk.handle_risk_check, Core.RiskEngine.check_position_limits,
      Core.RiskEngine.check_risk_rules, Core.RiskEngine.check_compliance,
      Core.RiskEngine.projectedPosition, riskEngineS4, orderS4, limitS4],
   check_position_limits_spec riskEngineS4 orderS4 limitS4 5000 rfl
     (Or.inl rfl)⟩

/-- An order violating any validation rule makes validate_order fail. -/
theorem validate_order_error_of_invalid (o : Core.Order)
    (h : o.price ≤ 0 ∨ o.quantity ≤ 0 ∨ o.symbol = "" ∨
      ¬(o.side = "buy" ∨ o.side = "sell") ∨
      ¬(o.order_type = "limit" ∨ o.order_type = "market" ∨
        o.order_type = "stop" ∨ o.order_type = "stop_limit")) :
    ∃ e : Core.OrderValidationError, Core.validate_order o = Except.error e := by
  unfold Core.validate_order
  split_ifs with h1 h2 h3 h4 h5
  all_goals first
    | exact ⟨_, rfl⟩
    | (rcases h with h | h | h | h | h <;> simp_all)

/-- C9: validation soundness.  Any order request with price ≤ 0,
quantity ≤ 0, empty symbol, a side outside buy/sell, or an order type
outside limit/market/stop/stop_limit is answered with status "rejected"
under every circuit-breaker and rate-limiter state (validation precedes
rate limiting, and an active breaker also rejects); when the breaker is
inactive, the reason is the validation error. -/
theorem gateway_validation_soundness (breakerActive rateLimitExceeded : Bool)
    (validationId acceptId freshClientId : String) (req : Gateway.OrderRequest)
    (h : req.price ≤ 0 ∨ req.quantity ≤ 0 ∨ req.symbol = "" ∨
      ¬(req.side = "buy" ∨ req.side = "sell") ∨
      ¬(req.order_type = "limit" ∨ req.order_type = "market" ∨
        req.order_type = "stop" ∨ req.order_type = "stop_limit")) :
    (Gateway.handle_order breakerActive rateLimitExceeded validationId acceptId
      freshClientId req).status = "rejected" ∧
    ∃ e : Core.OrderValidationError,
      (Gateway.handle_order false rateLimitExceeded validationId acceptId
        freshClientId req).reason = "validation_error: " ++ e.debugName := by
  obtain ⟨e, he⟩ := validate_order_error_of_invalid
    { order_id := validationId, client_order_id := req.client_order_id,
      symbol := req.symbol, price := req.price, quantity := req.quantity,
      side := req.side, order_type := req.order_type,
      time_in_force := req.time_in_force, user_id := "" } h
  constructor
  · cases breakerActive
    · simp [Gateway.handle_order, Gateway.create_order_response, he]
    · simp [Gateway.handle_order, Gateway.create_order_response]
  · exact ⟨e, by simp [Gateway.handle_order, Gateway.create_order_response, he]⟩

/-- C9 witness: a buy limit request at price -1 is rejected with the
InvalidPrice validation reason. -/
theorem gateway_validation_soundness_example :
    (Gateway.handle_order false false "v1" "a1" "u1" badPriceReq).status
      = "rejected" ∧
    ∃ e : Core.OrderValidationError,
      (Gateway.handle_order false false "v1" "a1" "u1" badPriceReq).reason
        = "validation_error: " ++ e.debugName :=
  gateway_validation_soundness false false "v1" "a1" "u1" badPriceReq
    (Or.inl (by norm_num [badPriceReq]))

/-- C8 (amended): the default LARGE_TRANSACTION amount rule is enabled
with threshold 10,000; any transaction with amount above 10,000 yields an
alert of type LARGE_TRANSACTION whose severity is "critical" when the
amount strictly exceeds the critical threshold 50,000 and "high"
otherwise (so amount exactly 50,000 gives "high"). -/
theorem amount_rule_severity (t : Compliance.Transaction) (recentCount : ℕ)
    (h : (10000 : ℚ) < t.amount) :
    Compliance.largeTransactionRule.enabled = true ∧
    Compliance.check_aml_rule Compliance.defaultRiskThresholds recentCount t
        Compliance.largeTransactionRule =
      some { transaction_id := t.transaction_id
             alert_type := "LARGE_TRANSACTION"
             severity := if (50000 : ℚ) < t.amount then "critical" else "high"
             recommended_action := "enhanced_due_diligence" } := by
  refine ⟨rfl, ?_⟩
  simp [Compliance.check_aml_rule, Compliance.largeTransactionRule,
    Compliance.defaultRiskThresholds, h]

/-- C8 witness: a transaction of amount 60,000 (strictly above the
critical threshold) fires LARGE_TRANSACTION with severity critical. -/
theorem amount_rule_severity_example :
    Compliance.largeTransactionRule.enabled = true ∧
    Compliance.check_aml_rule Compliance.defaultRiskThresholds 0 txHuge
        Compliance.largeTransactionRule =
      some { transaction_id := txHuge.transaction_id
             alert_type := "LARGE_TRANSACTION"
             severity := if (50000 : ℚ) < txHuge.amount then "critical" else "high"
             recommended_action := "enhanced_due_diligence" } :=
  amount_rule_severity txHuge 0 (by norm_num [txHuge])

/-- C10 (amended): check_risk_rules and check_compliance always return
None; when the circuit breaker is inactive and the number of
position-limit violations is below circuit_breaker_threshold, the
published violation list equals exactly the position-limit violations;
and an order on a symbol with no configured PositionLimit is approved
whenever the breaker is inactive and the threshold is positive.  (As
stated originally the claim fails: with threshold 0 the gate rejects
every order with circuit_breaker_tripped, and once the violation count
reaches the threshold the list is replaced by circuit_breaker_tripped.) -/
theorem risk_gate_stub_rules (eng : Core.RiskEngine) (o : Core.Order)
    (threshold : ℕ) :
    eng.check_risk_rules o = none ∧
    eng.check_compliance o = none ∧
    (((eng.check_position_limits o).getD []).length < threshold →
      (Risk.handle_risk_check false threshold eng o).violations =
        (eng.check_position_limits o).getD []) ∧
    (eng.position_limits o.symbol = none → 0 < threshold →
      (Risk.handle_risk_check false threshold eng o).status = "approved") := by
  refine ⟨rfl, rfl, ?_, ?_⟩
  · intro hlen
    dsimp only [Risk.handle_risk_check]
    simp only [Bool.false_eq_true, if_false, Core.RiskEngine.check_risk_rules,
      Core.RiskEngine.check_compliance, Option.getD_none, List.append_nil]
    split_ifs with h1 h2
    · exact absurd h1 (by omega)
    · simp [h2]
    · rfl
  · intro hnone hpos
    have hcheck : eng.check_position_limits o = none := by
      simp [Core.RiskEngine.check_position_limits, hnone]
    dsimp only [Risk.handle_risk_check]
    simp only [Bool.false_eq_true, if_false, Core.RiskEngine.check_risk_rules,
      Core.RiskEngine.check_compliance, hcheck, Option.getD_none,
      List.append_nil]
    split_ifs with h1
    · exact absurd h1 (by simp; omega)
    · rfl

/-- C10 witness: with the default threshold 5000, breaker inactive and
no limit configured for the order's symbol, the order is approved. -/
theorem risk_gate_stub_rules_example :
    (Risk.handle_risk_check false 5000 riskEngineFree orderFree).status
      = "approved" :=
  (risk_gate_stub_rules riskEngineFree orderFree 5000).2.2.2 rfl (by norm_num)

theorem sumQty_nil : sumQty [] = 0 := rfl

theorem sumQty_cons (t : Trade) (ts : List Trade) :
    sumQty (t :: ts) = t.quantity + sumQty ts := rfl

theorem sumQty_append (l1 l2 : List Trade) :
    sumQty (l1 ++ l2) = sumQty l1 + sumQty l2 := by
  induction l1 with
  | nil => simp [sumQty]
  | cons t ts ih => simp [sumQty, ih, add_assoc]

/-- Within one price level, the remaining quantity after the FIFO walk is
the initial remaining minus the sum of the trades made there (the code
decrements its local remaining_quantity by each trade's quantity). -/
theorem matchFifo_remaining (o : Order) (os : List Order) :
    ∀ r : ℚ, (matchFifo o r os).2.1 = r - sumQty (matchFifo o r os).1 := by
  induction os with
  | nil => intro r; simp [matchFifo, sumQty]
  | cons m rest ih =>
    intro r
    by_cases hr : r ≤ 0
    · simp [matchFifo, hr, sumQty]
    · simp only [matchFifo, hr, if_false]
      split_ifs with hm <;>
        simp [sumQty, mkTrade, ih (r - min r m.quantity)] <;> ring

/-- Across the level walk, the remaining quantity equals the initial
remaining minus the total traded quantity. -/
theorem matchLevels_remaining (o : Order) (levels : SymbolBook) :
    ∀ r : ℚ, (matchLevels o r levels).2.1 = r - sumQty (matchLevels o r levels).1 := by
  induction levels with
  | nil => intro r; simp [matchLevels, sumQty]
  | cons lvl rest ih =>
    obtain ⟨p, os⟩ := lvl
    intro r
    by_cases hr : r ≤ 0
    · simp [matchLevels, hr, sumQty]
    · by_cases hp : priceMatches o p
      · simp only [matchLevels, hr, if_false, hp, if_true]
        split_ifs with hempty <;>
          simp [sumQty_append, ih, matchFifo_remaining o os r] <;> ring
      · simp [matchLevels, hr, hp, ih r]

/-- Every trade produced by the FIFO walk at one level, at decomposition
pre ++ t :: post of the trade list, has positive quantity and equals
mkTrade of the incoming order, some maker m resting in the FIFO before
the walk, and quantity min(initial remaining - quantity already traded
in this walk, m's resting quantity). -/
theorem matchFifo_trades (o : Order) (os : List Order) :
    ∀ (r : ℚ) (pre : List Trade) (t : Trade) (post : List Trade),
      (∀ m ∈ os, 0 < m.quantity) →
      (matchFifo o r os).1 = pre ++ t :: post →
      0 < t.quantity ∧
      ∃ m ∈ os, t = mkTrade o m (min (r - sumQty pre) m.quantity) := by
  induction os with
  | nil =>
    intro r pre t post _ heq
    simp [matchFifo] at heq
  | cons m rest ih =>
    intro r pre t post hos heq
    by_cases hr : r ≤ 0
    · simp [matchFifo, hr] at heq
    · have hm : 0 < m.quantity := hos m (List.mem_cons_self m rest)
      have hqty : 0 < min r m.quantity := lt_min (lt_of_not_le hr) hm
      have hfst : (matchFifo o r (m :: rest)).1 =
          mkTrade o m (min r m.quantity) ::
            (matchFifo o (r - min r m.quantity) rest).1 := by
        simp only [matchFifo, hr, if_false]
        split_ifs <;> rfl
      rw [hfst] at heq
      cases pre with
      | nil =>
        simp only [List.nil_append] at heq
        obtain ⟨ht, -⟩ := List.cons.inj heq
        refine ⟨?_, m, List.mem_cons_self m rest, ?_⟩
        · rw [← ht]; simpa [mkTrade] using hqty
        · rw [← ht]; simp [sumQty]
      | cons t0 pre2 =>
        simp only [List.cons_append] at heq
        obtain ⟨ht0, hts⟩ := List.cons.inj heq
        obtain ⟨hpos, m2, hm2, hteq⟩ :=
          ih (r - min r m.quantity) pre2 t post
            (fun x hx => hos x (List.mem_cons_of_mem m hx)) hts
        refine ⟨hpos, m2, List.mem_cons_of_mem m hm2, ?_⟩
        rw [hteq]
        have harg : r - min r m.quantity - sumQty pre2 =
            r - sumQty (t0 :: pre2) := by
          rw [← ht0]; simp [sumQty, mkTrade]; ring
        rw [harg]

/-- Every trade produced by the level walk, at decomposition
pre ++ t :: post of the trade list, has positive quantity and is mkTrade
of some maker resting in the walked book with quantity
min(initial remaining - quantity traded before it, maker's quantity). -/
theorem matchLevels_trades (o : Order) (levels : SymbolBook) :
    ∀ (r : ℚ) (pre : List Trade) (t : Trade) (post : List Trade),
      (∀ m ∈ bookOrders levels, 0 < m.quantity) →
      (matchLevels o r levels).1 = pre ++ t :: post →
      0 < t.quantity ∧
      ∃ m ∈ bookOrders levels,
        t = mkTrade o m (min (r - sumQty pre) m.quantity) := by
  induction levels with
  | nil =>
    intro r pre t post _ heq
    simp [matchLevels] at heq
  | cons lvl rest ih =>
    obtain ⟨p, os⟩ := lvl
    intro r pre t post hos heq
    have hosL : ∀ m ∈ os, 0 < m.quantity := by
      intro m hm; exact hos m (by simp [bookOrders, hm])
    have hosR : ∀ m ∈ bookOrders rest, 0 < m.quantity := by
      intro m hm; exact hos m (by simp [bookOrders, hm])
    by_cases hr : r ≤ 0
    · simp [matchLevels, hr] at heq
    · by_cases hp : priceMatches o p
      · have hfst : (matchLevels o r ((p, os) :: rest)).1 =
            (matchFifo o r os).1 ++
              (matchLevels o ((matchFifo o r os).2.1) rest).1 := by
          simp only [matchLevels, hr, if_false, hp, if_true]
          split_ifs <;> rfl
        rw [hfst] at heq
        rcases List.append_eq_append_iff.1 heq with
          ⟨mid, hpre, hts2⟩ | ⟨mid, hts1, hmid⟩
        · obtain ⟨hpos, m, hm, hteq⟩ :=
            ih ((matchFifo o r os).2.1) mid t post hosR hts2
          refine ⟨hpos, m, by simp [bookOrders, hm], ?_⟩
          rw [hteq]
          have harg : (matchFifo o r os).2.1 - sumQty mid = r - sumQty pre := by
            rw [hpre, sumQty_append, matchFifo_remaining]; ring
          rw [harg]
        · cases mid with
          | nil =>
            have hts2 : (matchLevels o ((matchFifo o r os).2.1) rest).1 =
                [] ++ t :: post := by simpa using hmid.symm
            obtain ⟨hpos, m, hm, hteq⟩ :=
              ih ((matchFifo o r os).2.1) [] t post hosR hts2
            refine ⟨hpos, m, by simp [bookOrders, hm], ?_⟩
            rw [hteq]
            have harg : (matchFifo o r os).2.1 - sumQty [] = r - sumQty pre := by
              rw [matchFifo_remaining, hts1]
              simp [sumQty, sumQty_append]
            rw [harg]
          | cons t2 mid2 =>
            obtain ⟨ht2, hpost⟩ := List.cons.inj hmid
            obtain ⟨hpos, m, hm, hteq⟩ :=
              matchFifo_trades o os r pre t mid2 hosL (by rw [hts1, ht2])
            exact ⟨hpos, m, by simp [bookOrders, hm], hteq⟩
      · have hfst : (matchLevels o r ((p, os) :: rest)).1 =
            (matchLevels o r rest).1 := by
          simp [matchLevels, hr, hp]
        rw [hfst] at heq
        obtain ⟨hpos, m, hm, hteq⟩ := ih r pre t post hosR heq
        exact ⟨hpos, m, by simp [bookOrders, hm], hteq⟩

/-- C7: trade record invariant.  Every trade emitted by a process_order
call on a well-formed book (all resting quantities positive), taken at
its position pre ++ t :: post in the emitted list, has positive quantity;
its maker m rested in the opposing book before the call (each maker is
visited at most once per call, so m.quantity is its remaining at that
matching step); the trade price is the maker's stored price; the trade
quantity is min(incoming remaining at that step, maker remaining), where
the incoming remaining at that step is the original quantity minus the
quantity already traded; and buyer_id/seller_id are the buy side's resp.
sell side's client_order_id. -/
theorem process_order_trade_invariants (e : MatchingEngine) (o : Order)
    (hwf : ∀ m ∈ bookOrders (opposingBook e o), 0 < m.quantity)
    (pre : List Trade) (t : Trade) (post : List Trade)
    (hsplit : (e.process_order o).1 = pre ++ t :: post) :
    0 < t.quantity ∧
    ∃ m ∈ bookOrders (opposingBook e o),
      t.price = m.price ∧
      t.quantity = min (o.quantity - sumQty pre) m.quantity ∧
      t.buyer_id =
        (if o.side = OrderSide.Buy then o.client_order_id
         else m.client_order_id) ∧
      t.seller_id =
        (if o.side = OrderSide.Sell then o.client_order_id
         else m.client_order_id) := by
  have hp1 : (e.process_order o).1 = (e.match_order o).1 := by
    dsimp only [MatchingEngine.process_order]
    split_ifs <;> rfl
  rw [hp1] at hsplit
  have key : 0 < t.quantity ∧ ∃ m ∈ bookOrders (opposingBook e o),
      t = mkTrade o m (min (o.quantity - sumQty pre) m.quantity) := by
    cases hs : o.side with
    | Buy =>
      have hm : (e.match_order o).1 =
          (matchLevels o o.quantity (e.sell_orders o.symbol)).1 := by
        simp [MatchingEngine.match_order, hs]
      rw [hm] at hsplit
      have hwf2 : ∀ m ∈ bookOrders (e.sell_orders o.symbol), 0 < m.quantity := by
        intro m hmm
        exact hwf m (by simpa [opposingBook, hs] using hmm)
      have := matchLevels_trades o (e.sell_orders o.symbol) o.quantity
        pre t post hwf2 hsplit
      simpa [opposingBook, hs] using this
    | Sell =>
      have hm : (e.match_order o).1 =
          (matchLevels o o.quantity (e.buy_orders o.symbol)).1 := by
        simp [MatchingEngine.match_order, hs]
      rw [hm] at hsplit
      have hwf2 : ∀ m ∈ bookOrders (e.buy_orders o.symbol), 0 < m.quantity := by
        intro m hmm
        exact hwf m (by simpa [opposingBook, hs] using hmm)
      have := matchLevels_trades o (e.buy_orders o.symbol) o.quantity
        pre t post hwf2 hsplit
      simpa [opposingBook, hs] using this
  obtain ⟨hpos, m, hm, hteq⟩ := key
  subst hteq
  exact ⟨hpos, m, hm, by simp [mkTrade], by simp [mkTrade],
    by simp [mkTrade], by simp [mkTrade]⟩

/-- C7 witness: in engineA (one ask of 2 @ 100) processing buyA
(buy 5 @ 100), the emitted trade (at decomposition [] ++ t :: []) has
positive quantity and matches the resting ask with quantity
min(5 - 0, 2) = 2 at the maker price 100, with the correct buyer and
seller client ids. -/
theorem process_order_trade_invariants_example :
    0 < (mkTrade buyA askA 2).quantity ∧
    ∃ m ∈ bookOrders (opposingBook engineA buyA),
      (mkTrade buyA askA 2).price = m.price ∧
      (mkTrade buyA askA 2).quantity =
        min (buyA.quantity - sumQty []) m.quantity ∧
      (mkTrade buyA askA 2).buyer_id =
        (if buyA.side = OrderSide.Buy then buyA.client_order_id
         else m.client_order_id) ∧
      (mkTrade buyA askA 2).seller_id =
        (if buyA.side = OrderSide.Sell then buyA.client_order_id
         else m.client_order_id) :=
  process_order_trade_invariants engineA buyA (by decide)
    [] (mkTrade buyA askA 2) []
    (by norm_num [Matching.MatchingEngine.process_order,
      Matching.MatchingEngine.match_order, Matching.matchLevels,
      Matching.matchFifo, Matching.MatchingEngine.add_to_order_book,
      Matching.updateBook, Matching.insertOrder, Matching.priceMatches,
      Matching.mkTrade, engineA, buyA, askA, min_def])
